import Mathlib

/-!
Verification of the playback-synchronization core of the croquet video demo
(`src/video.js`), as a shallow embedding in Lean 4.

Modelling conventions:
* JS numbers are modelled as exact rationals (`ℚ`); the numeric literals in
  the source (`0.1`, `0.01`, thresholds) are translated to the corresponding
  exact rationals.
* A JS field that may be `undefined`/`null` is modelled as an `Option`.
* Stateful methods become pure functions from the old state to the new state,
  together with the observable effects they emit (adapter commands).
* A method that would throw a `TypeError`/`Error` at a given input is
  modelled as returning `none` (or `Except.error`).
-/

/-- `t - d * ⌊t / d⌋`: the mathematical remainder of `t` modulo `d`, used as
the reference point for the `wrappedTime` characterization. -/
def rmod (t d : ℚ) : ℚ := t - d * ⌊t / d⌋

/-- State of a `Video2DView` instance (`src/video.js` class `Video2DView`)
together with the HTML video element it wraps.  `duration` is `none` until
the element's `oncanplay` handler has stored the media duration; a known
media duration is a nonnegative finite number, and `0` is falsy in JS, so
the source's truthiness test `if (this.duration)` is entered exactly when
`0 < d` (the source loop would not terminate on a negative duration, which
cannot occur for media metadata). -/
structure Video2DView where
  duration : Option ℚ
  currentTime : ℚ
  paused : Bool
  playbackRate : ℚ
  muted : Bool
  isPlaying : Bool
  isBlocked : Bool
deriving DecidableEq

/-- The loop `while (videoTime > this.duration) videoTime -= this.duration;`
from `Video2DView.wrappedTime` (src/video.js line 235). -/
def wrapLoop (d : ℚ) (hd : 0 < d) (t : ℚ) : ℚ :=
  if h : d < t then wrapLoop d hd (t - d) else t
termination_by (⌈t / d⌉).toNat
decreasing_by
  simp_wf
  constructor
  · have h1 : (t - d) / d = t / d - 1 := by field_simp
    have h2 : (⌈t / d - 1⌉ : ℤ) = ⌈t / d⌉ - 1 := by
      have h3 := Int.ceil_sub_int (t / d) (1 : ℤ)
      push_cast at h3
      exact h3
    rw [h1, h2]
    omega
  · exact div_pos (lt_trans hd h) hd

/-- `Video2DView.wrappedTime(videoTime, guarded)` (src/video.js lines 233-239). -/
def Video2DView.wrappedTime (v : Video2DView) (videoTime : ℚ) (guarded : Bool) : ℚ :=
  match v.duration with
  | some d =>
    if hd : 0 < d then
      let w := wrapLoop d hd videoTime
      if guarded then min (d - 1/10) w else w
    else videoTime
  | none => videoTime

/-- `Video2DView.setStatic(videoTime)` (src/video.js lines 261-264): an
argument of `none` models a call with `videoTime === undefined`. -/
def Video2DView.setStatic (v : Video2DView) (videoTime : Option ℚ) : Video2DView :=
  let v1 := match videoTime with
    | some t => { v with currentTime := v.wrappedTime t true }
    | none => v
  { v1 with paused := true }

/-- `Video2DView.pause(videoTime)` (src/video.js lines 256-259). -/
def Video2DView.pause (v : Video2DView) (videoTime : Option ℚ) : Video2DView :=
  Video2DView.setStatic { v with isPlaying := false, isBlocked := false } videoTime

/-- The synchronous prefix of the async method `Video2DView.play(videoTime)`
(src/video.js lines 241-254): the guarded seek and the `isPlaying` flag are
set before the `await`; whether the browser blocks playback (the `isBlocked`
outcome) resolves asynchronously and is left to the environment. -/
def Video2DView.play (v : Video2DView) (videoTime : ℚ) : Video2DView :=
  { v with currentTime := v.wrappedTime videoTime true, isPlaying := true }

section WrapLoopLemmas

theorem wrapLoop_of_not_lt (d : ℚ) (hd : 0 < d) (t : ℚ) (h : ¬ d < t) :
    wrapLoop d hd t = t := by
  unfold wrapLoop
  simp [h]

theorem wrapLoop_of_lt (d : ℚ) (hd : 0 < d) (t : ℚ) (h : d < t) :
    wrapLoop d hd t = wrapLoop d hd (t - d) := by
  conv_lhs => unfold wrapLoop
  simp [h]

theorem rmod_sub_self (t d : ℚ) (hd : 0 < d) : rmod (t - d) d = rmod t d := by
  unfold rmod
  have h1 : (t - d) / d = t / d - 1 := by field_simp
  have h2 : (⌊t / d - 1⌋ : ℤ) = ⌊t / d⌋ - 1 := by
    have h3 := Int.floor_sub_int (t / d) (1 : ℤ)
    push_cast at h3
    exact h3
  rw [h1, h2]
  push_cast
  ring

theorem rmod_nonneg (t d : ℚ) (hd : 0 < d) : 0 ≤ rmod t d := by
  unfold rmod
  have h1 : (⌊t / d⌋ : ℚ) ≤ t / d := Int.floor_le _
  have h2 : d * (⌊t / d⌋ : ℚ) ≤ d * (t / d) := by
    exact mul_le_mul_of_nonneg_left h1 hd.le
  have h3 : d * (t / d) = t := by field_simp
  linarith

theorem rmod_lt (t d : ℚ) (hd : 0 < d) : rmod t d < d := by
  unfold rmod
  have h1 : t / d - 1 < (⌊t / d⌋ : ℚ) := Int.sub_one_lt_floor _
  have h2 : d * (t / d - 1) < d * (⌊t / d⌋ : ℚ) := by
    exact mul_lt_mul_of_pos_left h1 hd
  have h3 : d * (t / d) = t := by field_simp
  nlinarith

/-- Exact characterization of the wrap loop: it computes `t mod d`, except
that at a positive exact multiple of the duration it stops at `d` rather
than wrapping all the way to `0` (the loop condition is strict). -/
theorem wrapLoop_eq (d : ℚ) (hd : 0 < d) (t : ℚ) (ht : 0 ≤ t) :
    wrapLoop d hd t = if rmod t d = 0 ∧ 0 < t then d else rmod t d := by
  induction t using wrapLoop.induct d hd with
  | case1 t hlt ih =>
    rw [wrapLoop_of_lt d hd t hlt]
    have ht' : 0 ≤ t - d := by linarith
    rw [ih ht', rmod_sub_self t d hd]
    have h0t : 0 < t := by linarith
    have h0t' : 0 < t - d ↔ True := by
      constructor
      · intro; trivial
      · intro; linarith [hlt, hd]
    by_cases hr : rmod t d = 0
    · simp only [hr, true_and]
      rw [if_pos (by linarith : (0:ℚ) < t - d), if_pos h0t]
    · simp [hr]
  | case2 t hlt =>
    rw [wrapLoop_of_not_lt d hd t hlt]
    push_neg at hlt
    rcases eq_or_lt_of_le hlt with heq | hltd
    · subst heq
      have h1 : rmod t t = 0 := by
        unfold rmod
        rw [div_self (ne_of_gt hd), Int.floor_one]
        push_cast
        ring
      rw [if_pos ⟨h1, hd⟩]
    · have h1 : (⌊t / d⌋ : ℤ) = 0 := by
        rw [Int.floor_eq_zero_iff]
        constructor
        · exact div_nonneg ht hd.le
        · exact (div_lt_one hd).mpr hltd
      have h2 : rmod t d = t := by
        unfold rmod
        rw [h1]
        push_cast
        ring
      rw [h2]
      rcases eq_or_lt_of_le ht with h0 | h0
    -- `t = 0`: the condition `rmod = 0 ∧ 0 < t` is false, result is `t`
      · simp [← h0]
      · rw [if_neg (by rintro ⟨h3, -⟩; rw [h3] at h0; exact lt_irrefl 0 h0)]

end WrapLoopLemmas

/-- A concrete `Video2DView` state with a given duration, used to instantiate
universally quantified theorems. -/
def vSample (dur : Option ℚ) : Video2DView :=
  { duration := dur, currentTime := 0, paused := true, playbackRate := 1,
    muted := false, isPlaying := false, isBlocked := false }

/-- C1 counterexample: with a known duration `d = 1` and `t = d = 1` (an
exact positive multiple of the duration, `t mod d = 0`), the unguarded
`wrappedTime` returns `1 = d`, which is not in `[0, d)` and differs from
`t mod d`: the source loop condition `videoTime > duration` is strict, so it
stops at `d` instead of wrapping to `0`. -/
theorem wrappedTime_exact_multiple_cex :
    (vSample (some 1)).wrappedTime 1 false = 1 ∧
    ¬ ((vSample (some 1)).wrappedTime 1 false < 1) ∧
    rmod 1 1 = 0 := by
  have h1 : (vSample (some 1)).wrappedTime 1 false = 1 := by
    show Video2DView.wrappedTime _ 1 false = 1
    unfold Video2DView.wrappedTime
    simp only [vSample]
    rw [dif_pos one_pos]
    simp [wrapLoop_of_not_lt 1 one_pos 1 (lt_irrefl 1)]
  refine ⟨h1, by rw [h1]; exact lt_irrefl 1, by unfold rmod; norm_num⟩

/-- C1 (amended): for every `t ≥ 0` and known duration `d > 0`, the
unguarded `wrappedTime(t)` lies in the *closed* interval `[0, d]` and equals
`t mod d`, except that at a positive exact multiple of `d` it returns `d`
instead of `0`; the guarded variant is always `≤ d - 0.1` and in particular
never returns a value in `(d - 0.1, d)`. -/
theorem wrappedTime_range_amended (v : Video2DView) (d t : ℚ)
    (hdur : v.duration = some d) (hd : 0 < d) (ht : 0 ≤ t) :
    v.wrappedTime t false = (if rmod t d = 0 ∧ 0 < t then d else rmod t d) ∧
    0 ≤ v.wrappedTime t false ∧ v.wrappedTime t false ≤ d ∧
    v.wrappedTime t true ≤ d - 1/10 ∧
    ¬ (d - 1/10 < v.wrappedTime t true ∧ v.wrappedTime t true < d) := by
  have hfalse : v.wrappedTime t false = wrapLoop d hd t := by
    unfold Video2DView.wrappedTime
    rw [hdur]
    simp [dif_pos hd]
  have htrue : v.wrappedTime t true = min (d - 1/10) (wrapLoop d hd t) := by
    unfold Video2DView.wrappedTime
    rw [hdur]
    simp [dif_pos hd]
  have hchar := wrapLoop_eq d hd t ht
  have hrange : 0 ≤ wrapLoop d hd t ∧ wrapLoop d hd t ≤ d := by
    rw [hchar]
    split
    · exact ⟨hd.le, le_refl d⟩
    · exact ⟨rmod_nonneg t d hd, (rmod_lt t d hd).le⟩
  have hguard : v.wrappedTime t true ≤ d - 1/10 := by
    rw [htrue]
    exact min_le_left _ _
  refine ⟨by rw [hfalse]; exact hchar, by rw [hfalse]; exact hrange.1,
    by rw [hfalse]; exact hrange.2, hguard, ?_⟩
  rintro ⟨hlt, -⟩
  exact absurd hguard (not_le.mpr hlt)

/-- C1 witness: instantiating the amended theorem at `d = 2`, `t = 5`
(`5 mod 2 = 1`). -/
theorem wrappedTime_range_amended_witness :
    (vSample (some 2)).wrappedTime 5 false = 1 ∧
    (vSample (some 2)).wrappedTime 5 true ≤ 2 - 1/10 := by
  have h := wrappedTime_range_amended (vSample (some 2)) 2 5 rfl (by norm_num) (by norm_num)
  refine ⟨?_, h.2.2.2.1⟩
  rw [h.1]
  have hr : rmod 5 2 = 1 := by unfold rmod; norm_num
  rw [hr]
  norm_num

/-- C10: before the duration is known (the field is unset, or — were the
media to report it — `0`, both falsy in the source's `if (this.duration)`
test), `wrappedTime` returns its argument unchanged for both values of
`guarded`: no wrapping and no end-of-video clamping. -/
theorem wrappedTime_no_duration (v : Video2DView) (t : ℚ) (g : Bool)
    (h : v.duration = none ∨ v.duration = some 0) :
    v.wrappedTime t g = t := by
  rcases h with h | h <;>
    · unfold Video2DView.wrappedTime
      simp [h]

/-- C10 witness: at `t = 57/10` with an unset duration and with duration `0`,
guarded and unguarded. -/
theorem wrappedTime_no_duration_witness :
    (vSample none).wrappedTime (57/10) true = 57/10 ∧
    (vSample none).wrappedTime (57/10) false = 57/10 ∧
    (vSample (some 0)).wrappedTime (57/10) true = 57/10 ∧
    (vSample (some 0)).wrappedTime (57/10) false = 57/10 :=
  ⟨wrappedTime_no_duration (vSample none) (57/10) true (Or.inl rfl),
   wrappedTime_no_duration (vSample none) (57/10) false (Or.inl rfl),
   wrappedTime_no_duration (vSample (some 0)) (57/10) true (Or.inr rfl),
   wrappedTime_no_duration (vSample (some 0)) (57/10) false (Or.inr rfl)⟩

/-- The replicated playback intent: the three fields destructured by
`SyncedVideoModel.setPlayState` (src/video.js lines 298-304) and carried by
every `setPlayState` / `playStateChanged` payload.  `startOffset` is `none`
when the JS field is `null`. -/
structure PlayState where
  isPlaying : Bool
  startOffset : Option ℚ
  pausedTime : ℚ
deriving DecidableEq

/-- The `actionSpec` payload recording where an originating user action
happened (src/video.js lines 502 and 514). -/
structure ActionSpec where
  viewId : String
  type : String
  x : ℚ
  y : ℚ
deriving DecidableEq

/-- The playback-state fields of the shared `SyncedVideoModel`
(src/video.js lines 288-304). -/
structure SyncedVideoModelState where
  isPlaying : Bool
  startOffset : Option ℚ
  pausedTime : ℚ
deriving DecidableEq

/-- `SyncedVideoModel.addAsset` (src/video.js lines 288-295): the playback
fields it assigns (the asset descriptor itself is opaque to the
synchronizer and not modelled). -/
def addAsset : SyncedVideoModelState :=
  { isPlaying := false, startOffset := none, pausedTime := 0 }

/-- `SyncedVideoModel.setPlayState` (src/video.js lines 298-304): stores the
three payload fields verbatim (and rebroadcasts them, which the view model
receives as `playStateChanged`). -/
def setPlayState (data : PlayState) : SyncedVideoModelState :=
  { isPlaying := data.isPlaying, startOffset := data.startOffset,
    pausedTime := data.pausedTime }

/-- The play-state payload computed by `SyncedVideoView.handleUserClick`
(src/video.js lines 492-498): `videoTime` is the media element's
`currentTime` read after the immediate local pause. -/
def handleUserClickPlayState (latestIsPlaying : Bool) (videoTime sessionTime : ℚ) :
    PlayState :=
  let wantsToPlay := !latestIsPlaying
  { isPlaying := wantsToPlay,
    startOffset := if wantsToPlay then some (sessionTime - 1000 * videoTime) else none,
    pausedTime := if wantsToPlay then 0 else videoTime }

/-- The play-state payload computed by `SyncedVideoView.handleTimebar`
(src/video.js lines 506-513): always a paused state at
`duration * proportion`. -/
def handleTimebarPlayState (duration proportion : ℚ) : PlayState :=
  { isPlaying := false, startOffset := none,
    pausedTime := duration * proportion }

/-- `TimeBarView.dragAtOffset`'s clamp (src/video.js line 144):
`Math.max(0, Math.min(1, offsetX / barWidth))`, the proportion every
timebar scrub passes to `handleTimebar`. -/
def dragProportion (offsetX barWidth : ℚ) : ℚ :=
  max 0 (min 1 (offsetX / barWidth))

/-- The replicated play states reachable in a session whose loaded video has
duration `d`: the `addAsset` reset, plus the two local-action payloads stored
via `setPlayState`.  The side conditions record the collaborators'
guarantees: a media element's `currentTime` lies in `[0, duration]`, and a
timebar scrub proportion is clamped to `[0, 1]` (see `dragProportion`). -/
inductive ReachableModelState (d : ℚ) : SyncedVideoModelState → Prop where
  | addAsset : ReachableModelState d addAsset
  | userClick (latestIsPlaying : Bool) (c now : ℚ) (hc0 : 0 ≤ c) (hcd : c ≤ d) :
      ReachableModelState d (setPlayState (handleUserClickPlayState latestIsPlaying c now))
  | timebar (p : ℚ) (hp0 : 0 ≤ p) (hp1 : p ≤ 1) :
      ReachableModelState d (setPlayState (handleTimebarPlayState d p))

/-- C2 counterexample: scrubbing the timebar to its right edge is possible
(`dragProportion` of a pointer at the bar's full width is exactly `1`), and
the state it stores has `isPlaying = false` and `pausedTime` *equal* to the
duration, refuting `pausedTime < duration`. -/
theorem reachable_pausedTime_eq_duration_cex :
    dragProportion 100 100 = 1 ∧
    ReachableModelState 1 (setPlayState (handleTimebarPlayState 1 1)) ∧
    (setPlayState (handleTimebarPlayState 1 1)).isPlaying = false ∧
    ¬ ((setPlayState (handleTimebarPlayState 1 1)).pausedTime < 1) := by
  refine ⟨by norm_num [dragProportion], ?_, rfl, ?_⟩
  · exact ReachableModelState.timebar 1 (by norm_num) (by norm_num)
  · show ¬ ((1 : ℚ) * 1 < 1)
    norm_num

/-- C2 (amended): in every reachable replicated play state, `pausedTime` is
nonnegative, and whenever `isPlaying` is false, `pausedTime` is *at most*
the duration of the loaded video (equality is reached when the timebar is
scrubbed to its right edge, so `<` cannot be guaranteed). -/
theorem reachable_pausedTime_bounds (d : ℚ) (hd : 0 < d)
    (s : SyncedVideoModelState) (h : ReachableModelState d s) :
    0 ≤ s.pausedTime ∧ (s.isPlaying = false → s.pausedTime ≤ d) := by
  induction h with
  | addAsset => exact ⟨le_refl 0, fun _ => hd.le⟩
  | userClick latestIsPlaying c now hc0 hcd =>
    cases latestIsPlaying with
    | false =>
      -- toggle to play: `pausedTime = 0`, `isPlaying = true`
      exact ⟨le_refl 0, by intro hfalse; cases hfalse⟩
    | true =>
      -- toggle to pause: `pausedTime` is the element's current time
      exact ⟨hc0, fun _ => hcd⟩
  | timebar p hp0 hp1 =>
    constructor
    · exact mul_nonneg hd.le hp0
    · intro
      calc d * p ≤ d * 1 := mul_le_mul_of_nonneg_left hp1 hd.le
        _ = d := mul_one d

/-- C2 witness: the amended invariant instantiated at duration `2` for a
pause-toggle click at element time `3/2`. -/
theorem reachable_pausedTime_bounds_witness :
    0 ≤ (setPlayState (handleUserClickPlayState true (3/2) 5000)).pausedTime ∧
    ((setPlayState (handleUserClickPlayState true (3/2) 5000)).isPlaying = false →
      (setPlayState (handleUserClickPlayState true (3/2) 5000)).pausedTime ≤ 2) :=
  reachable_pausedTime_bounds 2 (by norm_num) _
    (ReachableModelState.userClick true (3/2) 5000 (by norm_num) (by norm_num))

/-- A DOM bounding rectangle (result of `getBoundingClientRect`). -/
structure Rect where
  left : ℚ
  top : ℚ
  width : ℚ
  height : ℚ
deriving DecidableEq

/-- A command issued to the video element adapter (`Video2DView`):
`pause t?` is `videoView.pause(t?)`, `play t` is `videoView.play(t)`. -/
inductive AdapterCmd where
  | pause (t : Option ℚ)
  | play (t : ℚ)
deriving DecidableEq

/-- The mutable fields of a `SyncedVideoView` instance that the
synchronization logic reads or writes (src/video.js class
`SyncedVideoView`), together with the environment it consults: its own
`viewId` and the bounding rectangles of the video element and the timebar.
`lastTimingCheck` and `lastRateAdjust` are `none` while still `undefined`
(the source reads them as `this.lastTimingCheck || 0`). -/
structure SyncedVideoView where
  viewId : String
  videoView : Option Video2DView
  latestPlayState : Option PlayState
  latestActionSpec : Option ActionSpec
  waitingForSync : Bool
  jumpIfNeeded : Bool
  playbackBoost : ℚ
  lastTimingCheck : Option ℚ
  lastRateAdjust : Option ℚ
  videoRect : Rect
  timebarRect : Rect
deriving DecidableEq

/-- `SyncedVideoView.calculateVideoTime` (src/video.js lines 442-448):
`(sessionNow - startOffset) / 1000`.  JS arithmetic coerces a `null`
`startOffset` to `0`; the `debugger` statement is a no-op. -/
def calculateVideoTime (ps : PlayState) (sessionNow : ℚ) : ℚ :=
  (sessionNow - ps.startOffset.getD 0) / 1000

/-- `SyncedVideoView.triggerJumpCheck` (src/video.js line 518). -/
def triggerJumpCheck (st : SyncedVideoView) : SyncedVideoView :=
  { st with jumpIfNeeded := true }

/-- `SyncedVideoView.revealAction(spec)` (src/video.js lines 411-423).
Returns `Except.error ()` when the source throws
`new Error("unknown action type")`; `Except.ok none` when the spec
originated from this very view (the body is skipped); `Except.ok (x, y)`
is the page coordinate handed to `useHandToPoint`. -/
def revealAction (myViewId : String) (videoRect timebarRect : Rect)
    (spec : ActionSpec) : Except Unit (Option (ℚ × ℚ)) :=
  if spec.viewId ≠ myViewId then
    if spec.type = "video" then
      Except.ok (some (spec.x * videoRect.width + videoRect.left,
                       spec.y * videoRect.height + videoRect.top))
    else if spec.type = "timebar" then
      Except.ok (some (spec.x * timebarRect.width + timebarRect.left,
                       spec.y * timebarRect.height + timebarRect.top))
    else Except.error ()
  else Except.ok none

/-- The observable outcome of one `applyPlayState` call: the new view
state, the adapter commands issued, and the result of the pointer-reveal
step (`Except.error ()` when `revealAction` throws after the adapter
commands have already been issued). -/
structure ApplyResult where
  state : SyncedVideoView
  cmds : List AdapterCmd
  reveal : Except Unit (Option (ℚ × ℚ))

/-- `SyncedVideoView.applyPlayState` (src/video.js lines 377-409).  Returns
`none` when the source would throw a `TypeError` (reading
`this.latestPlayState.isPlaying` with no stored state past the guard).  In
the playing branch only the synchronous prefix of `videoView.play` is
modelled (the blocked/muted/stepping continuation is asynchronous browser
behaviour); icon updates are purely cosmetic and not modelled. -/
def applyPlayState (st : SyncedVideoView) (now : ℚ) : Option ApplyResult :=
  match st.videoView with
  | none => some ⟨st, [], Except.ok none⟩
  | some v =>
    if st.waitingForSync then some ⟨st, [], Except.ok none⟩
    else
      match st.latestPlayState with
      | none => none
      | some ps =>
        let (st1, v1, cmds) :=
          if ps.isPlaying = false then
            (st, v.pause (some ps.pausedTime), [AdapterCmd.pause (some ps.pausedTime)])
          else
            let tPlay := calculateVideoTime ps now + 1/10
            ({ st with lastRateAdjust := some now, jumpIfNeeded := false },
             ({ v with playbackRate := 1 + st.playbackBoost * (1/100) }).play tPlay,
             [AdapterCmd.play tPlay])
        let st2 := { st1 with videoView := some v1 }
        let rev := match st2.latestActionSpec with
          | none => Except.ok none
          | some spec => revealAction st2.viewId st2.videoRect st2.timebarRect spec
        some ⟨st2, cmds, rev⟩

/-- The observable outcome of one `playStateChanged` call: `applied` is
true exactly when the handler fell through to `applyPlayState`. -/
structure PSCResult where
  state : SyncedVideoView
  applied : Bool
  cmds : List AdapterCmd
  reveal : Except Unit (Option (ℚ × ℚ))

/-- `SyncedVideoView.playStateChanged(rawData)` (src/video.js lines
364-375).  `data` holds the three play-state fields of the payload and
`actionSpec` its (optional) action spec, which the handler strips off and
stores first.  The source's no-op test — a stored `latest` exists and
`data[key] === latest[key]` for every key of `data` (exactly the three
play-state fields) — is `st.latestPlayState = some data`. -/
def playStateChanged (st : SyncedVideoView) (now : ℚ) (data : PlayState)
    (actionSpec : Option ActionSpec) : Option PSCResult :=
  let st1 := { st with latestActionSpec := actionSpec }
  if st1.latestPlayState = some data then
    some ⟨st1, false, [], Except.ok none⟩
  else
    (applyPlayState { st1 with latestPlayState := some data } now).map
      fun r => ⟨r.state, true, r.cmds, r.reveal⟩

/-- `SyncedVideoView.handleSyncState(isSynced)` (src/video.js lines
461-466). -/
def handleSyncState (st : SyncedVideoView) (now : ℚ) (isSynced : Bool) :
    Option ApplyResult :=
  let wasWaiting := st.waitingForSync
  let st1 := { st with waitingForSync := !isSynced }
  if wasWaiting && isSynced then applyPlayState st1 now
  else some ⟨st1, [], Except.ok none⟩

/-- A concrete `SyncedVideoView` state: synced-session catch-up still in
progress (`waitingForSync`), a 20-second video loaded, and a stored paused
state at 10s. -/
def viewSample : SyncedVideoView :=
  { viewId := "viewA", videoView := some (vSample (some 20)),
    latestPlayState := some { isPlaying := false, startOffset := none, pausedTime := 10 },
    latestActionSpec := none, waitingForSync := true, jumpIfNeeded := false,
    playbackBoost := 0, lastTimingCheck := none, lastRateAdjust := none,
    videoRect := ⟨0, 0, 640, 360⟩, timebarRect := ⟨0, 360, 640, 20⟩ }

/-- C3: when the incoming payload's three play-state fields all equal the
currently stored `latestPlayState`, the handler returns immediately: the
stored play state is not replaced, `applyPlayState` is not invoked
(`applied = false`), and no adapter command is issued — only
`latestActionSpec` is (re)assigned, which happens before the guard. -/
theorem playStateChanged_idempotent_noop (st : SyncedVideoView) (now : ℚ)
    (data : PlayState) (aspec : Option ActionSpec)
    (h : st.latestPlayState = some data) :
    playStateChanged st now data aspec =
      some ⟨{ st with latestActionSpec := aspec }, false, [], Except.ok none⟩ := by
  unfold playStateChanged
  simp [h]

/-- C3 witness: re-delivering the stored paused-at-10 state to `viewSample`
is a no-op. -/
theorem playStateChanged_idempotent_noop_witness :
    playStateChanged viewSample 0
        { isPlaying := false, startOffset := none, pausedTime := 10 } none =
      some ⟨{ viewSample with latestActionSpec := none }, false, [], Except.ok none⟩ :=
  playStateChanged_idempotent_noop viewSample 0
    { isPlaying := false, startOffset := none, pausedTime := 10 } none rfl

/-- C7: while `waitingForSync` is true, (1) any received play state is
stored by `playStateChanged` but `applyPlayState` issues no adapter
command, and (2) once the synced signal arrives, `handleSyncState` clears
`waitingForSync` and re-applies the stored state, so for a paused payload
the adapter receives exactly `pause(pausedTime)`. -/
theorem waitingForSync_defers_commands (st : SyncedVideoView)
    (hw : st.waitingForSync = true) :
    (∀ (data : PlayState) (aspec : Option ActionSpec) (now : ℚ),
      (playStateChanged st now data aspec).map
          (fun r => (r.cmds, r.state.waitingForSync, r.state.latestPlayState)) =
        some ([], true, some data)) ∧
    (∀ (data : PlayState) (now now2 : ℚ) (v : Video2DView),
      data.isPlaying = false → st.videoView = some v →
      ((playStateChanged st now data none).bind
          (fun r => handleSyncState r.state now2 true)).map
          (fun r2 => (r2.cmds, r2.state.waitingForSync)) =
        some ([AdapterCmd.pause (some data.pausedTime)], false)) := by
  constructor
  · intro data aspec now
    unfold playStateChanged applyPlayState
    by_cases h : st.latestPlayState = some data
    · simp [h, hw]
    · cases hv : st.videoView with
      | none => simp [h, hv, hw]
      | some v => simp [h, hv, hw]
  · intro data now now2 v hps hv
    have happ :
        applyPlayState { st with latestActionSpec := none,
                                 latestPlayState := some data } now =
          some ⟨{ st with latestActionSpec := none,
                          latestPlayState := some data }, [], Except.ok none⟩ := by
      unfold applyPlayState
      simp [hv, hw]
    have hsync : ∀ stmid : SyncedVideoView,
        stmid.videoView = some v → stmid.latestPlayState = some data →
        stmid.latestActionSpec = none → stmid.waitingForSync = true →
        (handleSyncState stmid now2 true).map
            (fun r2 => (r2.cmds, r2.state.waitingForSync)) =
          some ([AdapterCmd.pause (some data.pausedTime)], false) := by
      intro stmid h1 h2 h3 h4
      unfold handleSyncState applyPlayState
      simp [h1, h2, h3, h4, hps]
    unfold playStateChanged
    by_cases h : st.latestPlayState = some data
    · have hc : ({ st with latestActionSpec := none } :
          SyncedVideoView).latestPlayState = some data := h
      rw [if_pos hc]
      exact hsync _ hv h rfl hw
    · have hc : ¬ ({ st with latestActionSpec := none } :
          SyncedVideoView).latestPlayState = some data := h
      rw [if_neg hc, happ]
      exact hsync _ hv rfl rfl hw

/-- C7 witness: `viewSample` is waiting for sync with a 20s video loaded;
delivering `{isPlaying: false, pausedTime: 10}` issues no command, and the
subsequent synced signal issues exactly `pause(10)`. -/
theorem waitingForSync_defers_commands_witness :
    ((playStateChanged viewSample 0
          { isPlaying := false, startOffset := none, pausedTime := 10 } none).map
        (fun r => (r.cmds, r.state.waitingForSync, r.state.latestPlayState)) =
      some ([], true,
        some { isPlaying := false, startOffset := none, pausedTime := 10 })) ∧
    (((playStateChanged viewSample 0
          { isPlaying := false, startOffset := none, pausedTime := 10 } none).bind
        (fun r => handleSyncState r.state 1000 true)).map
        (fun r2 => (r2.cmds, r2.state.waitingForSync)) =
      some ([AdapterCmd.pause (some 10)], false)) :=
  ⟨(waitingForSync_defers_commands viewSample rfl).1
      { isPlaying := false, startOffset := none, pausedTime := 10 } none 0,
   (waitingForSync_defers_commands viewSample rfl).2
      { isPlaying := false, startOffset := none, pausedTime := 10 } 0 1000
      (vSample (some 20)) rfl rfl⟩

/-- C8 counterexample: `revealAction` checks `spec.viewId !== this.viewId`
*before* inspecting the type, so an applied action spec with an unknown type
that carries this view's own id is silently ignored (`ok none`) rather than
throwing — refuting the claim for such states. -/
theorem revealAction_own_view_cex :
    revealAction "viewA" ⟨0, 0, 640, 360⟩ ⟨0, 360, 640, 20⟩
        ⟨"viewA", "mystery", 0, 0⟩ = Except.ok none ∧
    revealAction "viewA" ⟨0, 0, 640, 360⟩ ⟨0, 360, 640, 20⟩
        ⟨"viewA", "mystery", 0, 0⟩ ≠ Except.error () := by
  constructor
  · unfold revealAction
    simp
  · unfold revealAction
    simp

/-- C8 (amended): for every applied action spec *originating from a
different view* (`spec.viewId ≠` this view's id) whose type is neither
`"video"` nor `"timebar"`, `revealAction` fails loudly by throwing an
`Error` rather than being silently ignored. -/
theorem revealAction_unknown_type_throws (myViewId : String) (vr tr : Rect)
    (spec : ActionSpec) (hview : spec.viewId ≠ myViewId)
    (hvid : spec.type ≠ "video") (htb : spec.type ≠ "timebar") :
    revealAction myViewId vr tr spec = Except.error () := by
  unfold revealAction
  simp [hview, hvid, htb]

/-- C8 witness: a `"mystery"`-typed spec from view `"viewB"` applied at view
`"viewA"` throws. -/
theorem revealAction_unknown_type_throws_witness :
    revealAction "viewA" ⟨0, 0, 640, 360⟩ ⟨0, 360, 640, 20⟩
        ⟨"viewB", "mystery", 1/2, 1/2⟩ = Except.error () :=
  revealAction_unknown_type_throws "viewA" _ _ _
    (by decide) (by decide) (by decide)

/-- C9: `setStatic(t)` never touches the `isPlaying`/`isBlocked` flags (nor
the duration); it seeks — guarded — exactly when `t` is defined, and pauses
the underlying element. -/
theorem setStatic_preserves_flags (v : Video2DView) (t : Option ℚ) :
    (v.setStatic t).isPlaying = v.isPlaying ∧
    (v.setStatic t).isBlocked = v.isBlocked ∧
    (v.setStatic t).paused = true ∧
    (v.setStatic t).currentTime =
      (match t with
        | some x => v.wrappedTime x true
        | none => v.currentTime) ∧
    (v.setStatic t).duration = v.duration := by
  cases t <;> exact ⟨rfl, rfl, rfl, rfl, rfl⟩

/-- `Math.sign` on a (non-NaN) JS number. -/
def qsign (x : ℚ) : ℚ := if x < 0 then -1 else if 0 < x then 1 else 0

/-- `SyncedVideoView.checkPlayStatus` (src/video.js lines 520-573).  The
result pairs the new view state with a flag recording whether the
jump-check branch performed a hard seek (the assignment to
`video.currentTime` on line 539).  `none` models the source throwing a
`TypeError` on a missing `latestPlayState` (either in `adjustPlaybar`, read
when the video is not playing, or in `calculateVideoTime`); at every such
throw point `jumpIfNeeded` has not yet been modified.  When the duration is
still undefined, the JS comparison `videoDiff < undefined / 2` is `false`
(`NaN` comparison), so the whole measurement block is skipped. -/
def checkPlayStatus (st : SyncedVideoView) (now : ℚ) :
    Option (SyncedVideoView × Bool) :=
  match st.videoView with
  | none => some (st, false)
  | some v =>
    -- adjustPlaybar (cosmetic, but it dereferences `latestPlayState` when
    -- the video is not playing)
    if v.isPlaying = false ∧ st.latestPlayState = none then none
    else
      let lastTimingCheck := st.lastTimingCheck.getD 0
      if v.isPlaying = true ∧ v.isBlocked = false ∧ 500 ≤ now - lastTimingCheck then
        match st.latestPlayState with
        | none => none
        | some ps =>
          let st1 := { st with lastTimingCheck := some now }
          let expectedTime := v.wrappedTime (calculateVideoTime ps now) false
          let videoTime := v.currentTime
          let videoDiff := videoTime - expectedTime
          let videoDiffMS := videoDiff * 1000
          match v.duration with
          | none => some (st1, false)
          | some dur =>
            if videoDiff < dur / 2 then
              if st1.jumpIfNeeded = true then
                let st2 := { st1 with jumpIfNeeded := false }
                if 500 < |videoDiffMS| then
                  let vjump :=
                    { v with currentTime :=
                        v.wrappedTime (videoTime - videoDiff + 1/10) true }
                  some ({ st2 with videoView := some vjump }, true)
                else some (st2, false)
              else
                let lastRateAdjust := st1.lastRateAdjust.getD 0
                if 3000 ≤ now - lastRateAdjust then
                  let oldBoostPercent := st1.playbackBoost
                  let diffAbs := |videoDiffMS|
                  let diffSign := qsign videoDiffMS
                  let desiredBoostPercent :=
                    -diffSign * (if 150 < diffAbs then 3 else
                                 if 50 < diffAbs then 1 else 0)
                  let st3 :=
                    if desiredBoostPercent ≠ oldBoostPercent then
                      if desiredBoostPercent = 0 ∧
                          qsign oldBoostPercent = -diffSign ∧ 25 ≤ diffAbs then
                        st1  -- hysteresis blocks the reset to 0%
                      else
                        let vrate :=
                          { v with playbackRate :=
                              1 + desiredBoostPercent * (1/100) }
                        { st1 with playbackBoost := desiredBoostPercent,
                                   videoView := some vrate }
                    else st1
                  some ({ st3 with lastRateAdjust := some now }, false)
                else some (st1, false)
            else some (st1, false)
      else some (st, false)

theorem qsign_ne_zero (m : ℚ) (hm : m ≠ 0) : qsign m ≠ 0 := by
  unfold qsign
  rcases lt_trichotomy m 0 with h | h | h
  · simp [h]
  · exact absurd h hm
  · simp [h, not_lt.mpr h.le]

/-- C4: on a drift-measurement tick that performs a rate adjustment
(playing, not blocked, the 500ms and 3000ms gates elapsed, no armed jump
check, `videoDiff` below the half-duration ignore threshold), with
`videoDiffMS = (actual - expected) * 1000`: if `|videoDiffMS| > 150` the
new `playbackBoost` is `3` with sign opposite to `videoDiffMS`, and if
`50 < |videoDiffMS| ≤ 150` it is `1` with sign opposite to `videoDiffMS`;
in particular a diff above `150`ms yields boost `-3` and below `-150`ms
boost `3`.  (No seek is performed on such a tick.) -/
theorem checkPlayStatus_rate_boost (st : SyncedVideoView) (now : ℚ)
    (v : Video2DView) (ps : PlayState) (dur m : ℚ)
    (hv : st.videoView = some v)
    (hplay : v.isPlaying = true) (hblock : v.isBlocked = false)
    (hgate : 500 ≤ now - st.lastTimingCheck.getD 0)
    (hps : st.latestPlayState = some ps)
    (hdur : v.duration = some dur)
    (hm : m = (v.currentTime - v.wrappedTime (calculateVideoTime ps now) false) * 1000)
    (hhalf : v.currentTime - v.wrappedTime (calculateVideoTime ps now) false < dur / 2)
    (hjump : st.jumpIfNeeded = false)
    (hrate : 3000 ≤ now - st.lastRateAdjust.getD 0)
    (h50 : 50 < |m|) :
    (checkPlayStatus st now).map (fun p => (p.1.playbackBoost, p.2)) =
      some (-(qsign m) * (if 150 < |m| then 3 else 1), false) ∧
    (150 < m → (checkPlayStatus st now).map (fun p => (p.1.playbackBoost, p.2)) =
      some (-3, false)) ∧
    (m < -150 → (checkPlayStatus st now).map (fun p => (p.1.playbackBoost, p.2)) =
      some (3, false)) := by
  have hm0 : m ≠ 0 := by
    intro h0
    rw [h0] at h50
    norm_num at h50
  have hq := qsign_ne_zero m hm0
  have hmain : (checkPlayStatus st now).map (fun p => (p.1.playbackBoost, p.2)) =
      some (-(qsign m) * (if 150 < |m| then 3 else 1), false) := by
    unfold checkPlayStatus
    simp only [hv, hplay, hblock, hps, hdur, ← hm]
    rw [if_neg (by simp), if_pos ⟨trivial, trivial, hgate⟩, if_pos hhalf,
      if_neg (by rw [hjump]; simp), if_pos hrate]
    simp only [Option.map_some, h50, if_true]
    by_cases hd : (-qsign m * (if 150 < |m| then 3 else 1)) = st.playbackBoost
    · rw [if_neg (by simpa using hd)]
      simp [← hd]
    · rw [if_pos (by simpa using hd)]
      have hne : ¬ ((-qsign m * (if 150 < |m| then 3 else 1)) = 0 ∧
          qsign st.playbackBoost = -qsign m ∧ 25 ≤ |m|) := by
        rintro ⟨hz, -, -⟩
        rcases mul_eq_zero.mp hz with hz1 | hz2
        · exact hq (by linarith [neg_eq_zero.mp hz1])
        · revert hz2
          split <;> norm_num
      rw [if_neg hne]
      simp
  refine ⟨hmain, ?_, ?_⟩
  · intro h150
    rw [hmain]
    have habs : |m| = m := abs_of_pos (by linarith)
    have hqs : qsign m = 1 := by
      unfold qsign
      rw [if_neg (by linarith), if_pos (by linarith)]
    rw [hqs, if_pos (by rw [habs]; exact h150)]
    norm_num
  · intro h150
    rw [hmain]
    have habs : |m| = -m := abs_of_neg (by linarith)
    have hqs : qsign m = -1 := by
      unfold qsign
      rw [if_pos (by linarith)]
    rw [hqs, if_pos (by rw [habs]; linarith)]
    norm_num

/-- C5: on a rate-adjustment tick where the desired boost is `0`
(`|videoDiffMS| ≤ 50`) but the existing `playbackBoost` is nonzero, and the
measured drift still has the sign justifying that boost
(`sign(oldBoost) = -sign(videoDiffMS)`) with `|videoDiffMS| ≥ 25`, the
hysteresis keeps the existing boost unchanged. -/
theorem checkPlayStatus_hysteresis (st : SyncedVideoView) (now : ℚ)
    (v : Video2DView) (ps : PlayState) (dur m : ℚ)
    (hv : st.videoView = some v)
    (hplay : v.isPlaying = true) (hblock : v.isBlocked = false)
    (hgate : 500 ≤ now - st.lastTimingCheck.getD 0)
    (hps : st.latestPlayState = some ps)
    (hdur : v.duration = some dur)
    (hm : m = (v.currentTime - v.wrappedTime (calculateVideoTime ps now) false) * 1000)
    (hhalf : v.currentTime - v.wrappedTime (calculateVideoTime ps now) false < dur / 2)
    (hjump : st.jumpIfNeeded = false)
    (hrate : 3000 ≤ now - st.lastRateAdjust.getD 0)
    (h50 : |m| ≤ 50) (h25 : 25 ≤ |m|)
    (hb : st.playbackBoost ≠ 0)
    (hsign : qsign st.playbackBoost = -qsign m) :
    (checkPlayStatus st now).map (fun p => (p.1.playbackBoost, p.2)) =
      some (st.playbackBoost, false) := by
  unfold checkPlayStatus
  simp only [hv, hplay, hblock, hps, hdur, ← hm]
  rw [if_neg (by simp), if_pos ⟨trivial, trivial, hgate⟩, if_pos hhalf,
    if_neg (by rw [hjump]; simp), if_pos hrate]
  have h150 : ¬ 150 < |m| := by
    intro hcontra
    linarith
  have h50' : ¬ 50 < |m| := not_lt.mpr h50
  rw [if_neg h150, if_neg h50', mul_zero]
  rw [if_pos (by simpa using (Ne.symm hb))]
  rw [if_pos ⟨rfl, hsign, h25⟩]
  simp

/-- A playing 100-second video whose element is 1 second ahead of the
expected time (currentTime 4 at session time 3000ms with startOffset 0). -/
def vPlayW : Video2DView :=
  { duration := some 100, currentTime := 4, paused := false, playbackRate := 1,
    muted := false, isPlaying := true, isBlocked := false }

/-- The playing replicated state paired with `vPlayW`. -/
def psPlayW : PlayState := { isPlaying := true, startOffset := some 0, pausedTime := 0 }

/-- A view state in mid-playback with `vPlayW` loaded and all gates open. -/
def stPlayW : SyncedVideoView :=
  { viewId := "viewA", videoView := some vPlayW,
    latestPlayState := some psPlayW,
    latestActionSpec := none, waitingForSync := false, jumpIfNeeded := false,
    playbackBoost := 0, lastTimingCheck := none, lastRateAdjust := none,
    videoRect := ⟨0, 0, 640, 360⟩, timebarRect := ⟨0, 360, 640, 20⟩ }

/-- C4 witness: at session time 3000ms, expected video time is 3s but the
element reports 4s (`videoDiffMS = 1000 > 150`), so the tick sets
`playbackBoost = -3`. -/
theorem checkPlayStatus_rate_boost_witness :
    (checkPlayStatus stPlayW 3000).map (fun p => (p.1.playbackBoost, p.2)) =
      some (-3, false) := by
  have hcalc : calculateVideoTime psPlayW 3000 = 3 := by
    unfold calculateVideoTime psPlayW
    norm_num
  have hwrap : vPlayW.wrappedTime (calculateVideoTime psPlayW 3000) false = 3 := by
    rw [hcalc]
    show Video2DView.wrappedTime _ 3 false = 3
    unfold Video2DView.wrappedTime vPlayW
    norm_num [wrapLoop_of_not_lt 100 (by norm_num) 3 (by norm_num)]
  have h := checkPlayStatus_rate_boost stPlayW 3000 vPlayW psPlayW 100 1000
    rfl rfl rfl (by norm_num [stPlayW]) rfl rfl
    (by rw [hwrap]; norm_num [vPlayW])
    (by rw [hwrap]; norm_num [vPlayW])
    rfl (by norm_num [stPlayW]) (by norm_num)
  exact h.2.1 (by norm_num)

/-- Like `vPlayW` but 30ms behind the expected time. -/
def vPlayW2 : Video2DView := { vPlayW with currentTime := 3 - 3/100 }

/-- Like `stPlayW` but with `vPlayW2` loaded and an existing `+1` boost. -/
def stPlayW2 : SyncedVideoView :=
  { stPlayW with videoView := some vPlayW2, playbackBoost := 1 }

/-- C5 witness: prior boost `+1`, drift `-30`ms (still lagging,
`25 ≤ 30 ≤ 50`): the boost remains `+1`. -/
theorem checkPlayStatus_hysteresis_witness :
    (checkPlayStatus stPlayW2 3000).map (fun p => (p.1.playbackBoost, p.2)) =
      some (1, false) := by
  have hcalc : calculateVideoTime psPlayW 3000 = 3 := by
    unfold calculateVideoTime psPlayW
    norm_num
  have hwrap : vPlayW2.wrappedTime (calculateVideoTime psPlayW 3000) false = 3 := by
    rw [hcalc]
    show Video2DView.wrappedTime _ 3 false = 3
    unfold Video2DView.wrappedTime vPlayW2 vPlayW
    norm_num [wrapLoop_of_not_lt 100 (by norm_num) 3 (by norm_num)]
  have hq1 : qsign (1:ℚ) = 1 := by unfold qsign; norm_num
  have hqm : qsign (-30:ℚ) = -1 := by unfold qsign; norm_num
  have h := checkPlayStatus_hysteresis stPlayW2 3000 vPlayW2 psPlayW 100 (-30)
    rfl rfl rfl (by norm_num [stPlayW2, stPlayW]) rfl rfl
    (by rw [hwrap]; norm_num [vPlayW2, vPlayW])
    (by rw [hwrap]; norm_num [vPlayW2, vPlayW])
    rfl (by norm_num [stPlayW2, stPlayW]) (by norm_num) (by norm_num)
    (by norm_num [stPlayW2, stPlayW])
    (by show qsign (stPlayW2.playbackBoost) = _; norm_num [stPlayW2, stPlayW, hq1, hqm])
  exact h

/-- Branch analysis of `checkPlayStatus` for the jump-check flag: a tick
either throws (leaving `jumpIfNeeded` untouched), or it returns a state
whose `jumpIfNeeded` can only be `true` if it already was, and it performs
a hard seek (`p.2 = true`) only from an armed flag, consuming it
(`p.1.jumpIfNeeded = false`) before deciding whether to seek. -/
theorem checkPlayStatus_cases (st : SyncedVideoView) (now : ℚ) :
    checkPlayStatus st now = none ∨
    ∃ p : SyncedVideoView × Bool, checkPlayStatus st now = some p ∧
      (p.1.jumpIfNeeded = true → st.jumpIfNeeded = true) ∧
      (p.2 = true → st.jumpIfNeeded = true ∧ p.1.jumpIfNeeded = false) := by
  obtain ⟨vid, vv, lps, las, ws, jin, pb, ltc, lra, vr, tr⟩ := st
  unfold checkPlayStatus
  cases vv with
  | none =>
    right
    exact ⟨_, rfl, fun h => h, by simp⟩
  | some v =>
    dsimp only
    by_cases h1 : v.isPlaying = false ∧ lps = none
    · left
      rw [if_pos h1]
    · rw [if_neg h1]
      by_cases h2 : v.isPlaying = true ∧ v.isBlocked = false ∧
          500 ≤ now - ltc.getD 0
      · rw [if_pos h2]
        cases lps with
        | none => left; rfl
        | some ps =>
          dsimp only
          cases v.duration with
          | none =>
            right
            exact ⟨_, rfl, fun h => h, by simp⟩
          | some dur =>
            dsimp only
            by_cases h3 : v.currentTime -
                v.wrappedTime (calculateVideoTime ps now) false < dur / 2
            · rw [if_pos h3]
              cases jin with
              | true =>
                rw [if_pos rfl]
                by_cases h5 : 500 <
                    |(v.currentTime -
                      v.wrappedTime (calculateVideoTime ps now) false) * 1000|
                · rw [if_pos h5]
                  right
                  exact ⟨_, rfl, by simp, fun _ => ⟨rfl, rfl⟩⟩
                · rw [if_neg h5]
                  right
                  exact ⟨_, rfl, by simp, by simp⟩
              | false =>
                rw [if_neg (by simp)]
                by_cases h6 : 3000 ≤ now - lra.getD 0
                · rw [if_pos h6]
                  right
                  refine ⟨_, rfl, ?_, by simp⟩
                  intro h
                  simp only [apply_ite SyncedVideoView.jumpIfNeeded] at h
                  simp at h
                · rw [if_neg h6]
                  right
                  exact ⟨_, rfl, fun h => h, by simp⟩
            · rw [if_neg h3]
              right
              exact ⟨_, rfl, fun h => h, by simp⟩
      · rw [if_neg h2]
        right
        exact ⟨_, rfl, fun h => h, by simp⟩

/-- One `checkPlayStatus` tick observed through the jump-check flag: the
environment (snapshot `e.1` at session time `e.2`) may have changed every
field since the previous tick *except* `jumpIfNeeded`, which only
`triggerJumpCheck` and the tick itself modify and which is threaded in as
`flag`.  Result: the flag after the tick, and whether the jump branch
performed a hard seek.  When the tick throws (`none`), the flag is
untouched (every throw point precedes the jump branch). -/
def tickFrom (flag : Bool) (e : SyncedVideoView × ℚ) : Bool × Bool :=
  match checkPlayStatus { e.1 with jumpIfNeeded := flag } e.2 with
  | none => (flag, false)
  | some (st2, seek) => (st2.jumpIfNeeded, seek)

/-- Number of hard seeks performed by the jump branch over a sequence of
`checkPlayStatus` ticks, threading the jump-check flag from tick to tick. -/
def countJumpSeeks (flag : Bool) : List (SyncedVideoView × ℚ) → ℕ
  | [] => 0
  | e :: rest =>
    let r := tickFrom flag e
    (if r.2 then 1 else 0) + countJumpSeeks r.1 rest

theorem tickFrom_false (e : SyncedVideoView × ℚ) :
    tickFrom false e = (false, false) := by
  unfold tickFrom
  rcases checkPlayStatus_cases { e.1 with jumpIfNeeded := false } e.2 with
    h | ⟨⟨p1, p2⟩, hp, h1, h2⟩
  · rw [h]
  · rw [hp]
    have hflag : p1.jumpIfNeeded = false := by
      cases hj : p1.jumpIfNeeded
      · rfl
      · have hcontra := h1 hj
        simp at hcontra
    have hseek : p2 = false := by
      cases hs : p2
      · rfl
      · have hcontra := (h2 hs).1
        simp at hcontra
    simp [hflag, hseek]

theorem tickFrom_true_seek (e : SyncedVideoView × ℚ)
    (h : (tickFrom true e).2 = true) : (tickFrom true e).1 = false := by
  revert h
  unfold tickFrom
  rcases checkPlayStatus_cases { e.1 with jumpIfNeeded := true } e.2 with
    h | ⟨⟨p1, p2⟩, hp, h1, h2⟩
  · rw [h]
    simp
  · rw [hp]
    intro hs
    exact (h2 hs).2

theorem countJumpSeeks_false (l : List (SyncedVideoView × ℚ)) :
    countJumpSeeks false l = 0 := by
  induction l with
  | nil => rfl
  | cons e rest ih =>
    unfold countJumpSeeks
    rw [tickFrom_false]
    simpa using ih

theorem countJumpSeeks_le_one (flag : Bool) (l : List (SyncedVideoView × ℚ)) :
    countJumpSeeks flag l ≤ 1 := by
  induction l generalizing flag with
  | nil => norm_num [countJumpSeeks]
  | cons e rest ih =>
    cases flag with
    | false =>
      rw [countJumpSeeks_false]
      norm_num
    | true =>
      unfold countJumpSeeks
      cases hs : (tickFrom true e).2 with
      | false => simpa [hs] using ih (tickFrom true e).1
      | true =>
        simp only [hs, tickFrom_true_seek e hs, countJumpSeeks_false]
        norm_num

/-- C6: once `triggerJumpCheck` arms the flag, at most one hard seek occurs
over any subsequent sequence of `checkPlayStatus` ticks (with arbitrary
environment interference on everything but the flag) until the flag is
armed again; and a tick from an armed flag never both seeks and leaves the
flag armed — the first timing-check tick that sees the flag consumes it
before deciding whether to seek. -/
theorem jumpCheck_one_shot (st : SyncedVideoView)
    (ticks : List (SyncedVideoView × ℚ)) :
    countJumpSeeks (triggerJumpCheck st).jumpIfNeeded ticks ≤ 1 ∧
    ∀ e : SyncedVideoView × ℚ,
      ((tickFrom true e).2 && (tickFrom true e).1) = false := by
  constructor
  · exact countJumpSeeks_le_one _ ticks
  · intro e
    cases hs : (tickFrom true e).2 with
    | false => simp [hs]
    | true =>
      rw [tickFrom_true_seek e hs]
      rfl
